import Mathlib

/-!
Shallow embedding of the dropheus-backend search pipeline.

Source files:
- `aliutils` (src/unnamed/part_000): cache load/save, `getCacheKey`,
  `optimizeSearchQuery`, `searchAliExpress` (credential rotation loop,
  result projection, cache write).
- express handler (src/unnamed/part_002): the `/search` route, in
  particular the `page` argument expression.

JavaScript-specific behaviour is modelled explicitly:
- truthiness of strings (`""` is falsy) and of `undefined` (absent);
- arrays are always truthy (so a cached empty result list still counts
  as a cache hit in `if (cache[cacheKey])`);
- operator precedence in the handler: `||` binds tighter than `?:`, so
  `page ? parseInt(page) : 1 || 'default'` is
  `page ? parseInt(page) : (1 || 'default')`;
- `lastError.message` on `lastError === null` raises a TypeError, modelled
  as a distinct error constructor.

Network I/O is modelled by oracles: an `AiOutcome` for the single optional
call to the AI rewrite endpoint, and a function `String → SearchOutcome`
giving, per credential, the upstream search endpoint's response. A run
records how many AI calls were made and which credentials were used, so
"no network call happens" claims are statable.
-/

/-- JS truthiness of a possibly-absent string value (`undefined` and `""` are
falsy, every other string is truthy). -/
def jsTruthyStr : Option String → Bool
  | none => false
  | some s => s ≠ ""

/-! ## Upstream response shapes (outbound dependency 2) -/

/-- `item.sku.def` in the upstream JSON (`def` is a Lean keyword, the field is
named `sdef` here). -/
structure SkuDef where
  promotionPrice : Option String
  deriving Repr, DecidableEq

/-- `item.sku` in the upstream JSON. -/
structure Sku where
  sdef : Option SkuDef
  deriving Repr, DecidableEq

/-- `item.item` in the upstream JSON: the fields the projection reads. -/
structure UpstreamItem where
  title : Option String
  sku : Option Sku
  image : Option String
  itemUrl : Option String
  deriving Repr, DecidableEq

/-- One entry of `result.resultList`; its `item` property may be absent
(the code reads it with optional chaining `item.item?.`). -/
structure UpstreamEntry where
  item : Option UpstreamItem
  deriving Repr, DecidableEq

/-- `result` in the upstream JSON body. -/
structure UpstreamResult where
  resultList : Option (List UpstreamEntry)
  deriving Repr, DecidableEq

/-- The parsed JSON body of a non-403, `ok` upstream search response:
an optional `error` field and an optional `result.resultList`. -/
structure UpstreamBody where
  error : Option String
  result : Option UpstreamResult
  deriving Repr, DecidableEq

/-- What the upstream search endpoint does for one credential:
the fetch throws (transport error), returns status 403, returns another
non-ok status with a body text, or returns ok with a parsed JSON body. -/
inductive SearchOutcome where
  | transportError : String → SearchOutcome
  | forbidden : SearchOutcome
  | httpError : Nat → String → SearchOutcome
  | okBody : UpstreamBody → SearchOutcome
  deriving Repr, DecidableEq

/-! ## Result projection (part_000 lines 182-187) -/

/-- A projected result item: `{ title, price, image, url }`; absent upstream
fields stay absent. -/
structure ResultItem where
  title : Option String
  price : Option String
  image : Option String
  url : Option String
  deriving Repr, DecidableEq

/-- The image/url expression of the projection:
`v ? `https:${v}` : v`. A truthy (present, non-empty) value is prefixed
with `https:` unconditionally; `undefined` stays `undefined`; an empty
string stays an empty string. -/
def schemePrefix (v : Option String) : Option String :=
  match v with
  | none => none
  | some s => if s ≠ "" then some ("https:" ++ s) else some s

/-- Projection of one upstream entry (part_000 lines 183-186). -/
def projectItem (e : UpstreamEntry) : ResultItem :=
  { title := e.item.bind (·.title)
    price := ((e.item.bind (·.sku)).bind (·.sdef)).bind (·.promotionPrice)
    image := schemePrefix (e.item.bind (·.image))
    url := schemePrefix (e.item.bind (·.itemUrl)) }

/-- `data.result?.resultList?.slice(0, 3).map(...) || []`
(part_000 line 182-187): take at most the first 3 entries and project each;
an absent `result` or `resultList` yields the empty list. -/
def projectResults (body : UpstreamBody) : List ResultItem :=
  (((body.result.bind (·.resultList)).getD []).take 3).map projectItem

/-! ## Cache (part_000 lines 11-43) -/

/-- In-memory cache: a mapping from cache key to result list. Only arrays are
ever stored, and a JS array is truthy, so `if (cache[cacheKey])` hits exactly
when the key is present. -/
abbrev Cache := List (String × List ResultItem)

/-- `getCacheKey` (part_000 lines 40-43): the template string
`${q}|${page}|${sort}` over the raw request fields. -/
def getCacheKey (q page sort : String) : String :=
  q ++ "|" ++ page ++ "|" ++ sort

/-- `cache[cacheKey] = results` followed by `saveCache(cache)`:
the mapping with the new binding (shadowing any old one). -/
def cacheInsert (c : Cache) (k : String) (v : List ResultItem) : Cache :=
  (k, v) :: c

/-- `cache[cacheKey]` lookup. -/
def cacheLookup (c : Cache) (k : String) : Option (List ResultItem) :=
  List.lookup k c

/-! ## Query optimizer (part_000 lines 50-95) -/

/-- What the AI rewrite endpoint does if called: the fetch or JSON parsing
throws, the response status is non-ok, or it returns ok with an optional
`choices[0].message.content` string. -/
inductive AiOutcome where
  | transportError : String → AiOutcome
  | httpError : Nat → AiOutcome
  | ok : Option String → AiOutcome
  deriving Repr, DecidableEq

/-- `optimizeSearchQuery` (part_000 lines 50-95). Returns the query to use
and the number of calls made to the AI endpoint (0 or 1). With no
configured credential (absent or empty `HACKCLUB_API_KEY`, both falsy) the
input query is returned and no call is made. Any failure, and an absent or
all-whitespace content, fall back to the input query (the call still
happened). -/
def optimizeSearchQuery (hackclubApiKey : Option String) (ai : AiOutcome)
    (query : String) : String × Nat :=
  if jsTruthyStr hackclubApiKey = false then
    (query, 0)
  else
    match ai with
    | .transportError _ => (query, 1)
    | .httpError _ => (query, 1)
    | .ok none => (query, 1)
    | .ok (some content) =>
      let optimizedQuery := content.trim
      if optimizedQuery ≠ "" then (optimizedQuery, 1) else (query, 1)

/-! ## Credential configuration (part_000 lines 129-140) -/

/-- The effective `rapidApiKey` value: absent (`undefined`), a string, or an
array of strings. -/
inductive KeyConfig where
  | absent : KeyConfig
  | str : String → KeyConfig
  | arr : List String → KeyConfig
  deriving Repr, DecidableEq

/-- JS truthiness of the `rapidApiKey` value in `if (!rapidApiKey)`:
`undefined` and `""` are falsy; every array, including the empty one,
is truthy. -/
def keyConfigTruthy : KeyConfig → Bool
  | .absent => false
  | .str s => s ≠ ""
  | .arr _ => true

/-- Normalization to an ordered key list (part_000 lines 133-140): an array
is used as is; a string is split on `,` with each piece trimmed. -/
def normalizeKeys : KeyConfig → List String
  | .absent => []
  | .str s => (s.splitOn ",").map (·.trim)
  | .arr l => l

/-! ## The credential loop (part_000 lines 147-205) -/

/-- The outcome of one iteration of the credential loop, at (0-based) loop
index `i`, given the upstream response: either the projected results
(success, `return results`) or the recorded error message
(`lastError = ...; continue`). -/
inductive Attempt where
  | success : List ResultItem → Attempt
  | failure : String → Attempt
  deriving Repr, DecidableEq

/-- One iteration of the loop body (part_000 lines 153-202). 403 records
`API key ${i+1} returned 403 Forbidden`; another non-ok status throws
`HTTP error! status: ..., body: ...`; an ok body with a truthy `error`
field throws `API Error: ...`; a transport error propagates its own
message; otherwise the projected results are returned. -/
def runAttempt (i : Nat) (o : SearchOutcome) : Attempt :=
  match o with
  | .forbidden =>
    .failure ("API key " ++ toString (i + 1) ++ " returned 403 Forbidden")
  | .transportError m => .failure m
  | .httpError status bodyText =>
    .failure ("HTTP error! status: " ++ toString status ++ ", body: " ++ bodyText)
  | .okBody body =>
    if jsTruthyStr body.error then
      .failure ("API Error: " ++ body.error.getD "")
    else
      .success (projectResults body)

/-- The `for` loop over `apiKeys` (part_000 lines 149-203), with the
`lastError` accumulator threaded through. `search` is the per-credential
upstream oracle, `i` the current 0-based index. Returns: the results on
first success (`none` when every key failed), the final `lastError`, and
the list of credentials actually sent in outbound requests, in order. -/
def tryKeys (search : String → SearchOutcome) :
    List String → Nat → Option String →
    Option (List ResultItem) × Option String × List String
  | [], _, lastError => (none, lastError, [])
  | k :: rest, i, lastError =>
    match runAttempt i (search k) with
    | .success results => (some results, lastError, [k])
    | .failure m =>
      let (r, l, used) := tryKeys search rest (i + 1) (some m)
      (r, l, k :: used)

/-- Whether an upstream response is a "true success" for the loop body: an
ok status whose body has no truthy `error` field. (`runAttempt` returns
`.success` exactly on these.) -/
def outcomeOk : SearchOutcome → Bool
  | .okBody body => !(jsTruthyStr body.error)
  | _ => false

/-- The results a successful response produces (meaningless on
non-successful outcomes). -/
def successResults : SearchOutcome → List ResultItem
  | .okBody body => projectResults body
  | _ => []

/-! ## searchAliExpress (part_000 lines 106-206) -/

/-- A thrown JS error: `new Error(msg)`, or the TypeError raised by reading
`.message` on `null`. -/
inductive JsError where
  | err : String → JsError
  | nullFieldAccess : String → JsError
  deriving Repr, DecidableEq

/-- The message of the final exhaustion error (part_000 line 205):
`Failed to search AliExpress with all ${n} API key(s). Last error: ${m}`. -/
def exhaustMsg (n : Nat) (lastMsg : String) : String :=
  "Failed to search AliExpress with all " ++ toString n ++
    " API key(s). Last error: " ++ lastMsg

/-- Everything observable about one `searchAliExpress` run: the returned or
thrown value, the cache after the run, the cache key consulted (when any
was), the query string put in the outbound search URL (when one was built),
the number of AI rewrite calls, and the credentials sent upstream, in
order. -/
structure RunResult where
  outcome : Except JsError (List ResultItem)
  cache' : Cache
  cacheKeyUsed : Option String
  searchQuery : Option String
  aiCalls : Nat
  usedKeys : List String
  deriving Repr

/-- The configured environment: `HACKCLUB_API_KEY` and the effective
`rapidApiKey` (option field or `RAPIDAPI_KEY`). -/
structure Config where
  hackclubApiKey : Option String
  rapidApiKey : KeyConfig

/-- The network environment of one run: the AI endpoint's behaviour and the
search endpoint's behaviour per credential. -/
structure NetOracle where
  ai : AiOutcome
  search : String → SearchOutcome

/-- `searchAliExpress` (part_000 lines 106-206) as a function of the config,
the network oracles, the loaded cache and the request fields (`page`
already stringified, as both `getCacheKey` and the URL use it only through
string conversion). Mirrors the source order: `q` check, cache lookup with
the original query, optimizer call, `rapidApiKey` check, key
normalization, credential loop, cache write on success, exhaustion error
(a null TypeError when the loop ran zero times) otherwise. -/
def searchAliExpress (cfg : Config) (net : NetOracle) (cache : Cache)
    (q page sort : String) : RunResult :=
  if q = "" then
    { outcome := .error (.err "Search query (q) is required")
      cache' := cache, cacheKeyUsed := none, searchQuery := none
      aiCalls := 0, usedKeys := [] }
  else
    let cacheKey := getCacheKey q page sort
    match cacheLookup cache cacheKey with
    | some cached =>
      { outcome := .ok cached
        cache' := cache, cacheKeyUsed := some cacheKey, searchQuery := none
        aiCalls := 0, usedKeys := [] }
    | none =>
      let opt := optimizeSearchQuery cfg.hackclubApiKey net.ai q
      if keyConfigTruthy cfg.rapidApiKey = false then
        { outcome := .error
            (.err "RapidAPI key is required. Set RAPIDAPI_KEY in .env file")
          cache' := cache, cacheKeyUsed := some cacheKey, searchQuery := none
          aiCalls := opt.2, usedKeys := [] }
      else
        let apiKeys := normalizeKeys cfg.rapidApiKey
        match tryKeys net.search apiKeys 0 none with
        | (some results, _, used) =>
          { outcome := .ok results
            cache' := cacheInsert cache cacheKey results
            cacheKeyUsed := some cacheKey, searchQuery := some opt.1
            aiCalls := opt.2, usedKeys := used }
        | (none, some lastMsg, used) =>
          { outcome := .error (.err (exhaustMsg apiKeys.length lastMsg))
            cache' := cache, cacheKeyUsed := some cacheKey
            searchQuery := some opt.1
            aiCalls := opt.2, usedKeys := used }
        | (none, none, used) =>
          { outcome := .error (.nullFieldAccess "message")
            cache' := cache, cacheKeyUsed := some cacheKey
            searchQuery := some opt.1
            aiCalls := opt.2, usedKeys := used }

/-! ## The /search handler's page argument (part_002 line 20) -/

/-- A JS value as relevant for the handler's `page` argument: a number,
`NaN`, or a string. -/
inductive JsVal where
  | num : Int → JsVal
  | nan : JsVal
  | str : String → JsVal
  deriving Repr, DecidableEq

/-- JS truthiness of a `JsVal` (`0`, `NaN` and `""` are falsy). -/
def JsVal.truthy : JsVal → Bool
  | .num n => n ≠ 0
  | .nan => false
  | .str s => s ≠ ""

/-- JS `a || b`. -/
def jsOr (a b : JsVal) : JsVal := if a.truthy then a else b

/-- JS `parseInt` with radix 10 on the values that can arrive here: skip
leading whitespace, optional sign, longest leading digit run; `NaN` if
there is none. -/
def parseInt (s : String) : JsVal :=
  let t := s.data.dropWhile (fun c => c.isWhitespace)
  let signDigits : Int × List Char :=
    match t with
    | '-' :: rest => (-1, rest)
    | '+' :: rest => (1, rest)
    | l => (1, l)
  let ds := signDigits.2.takeWhile Char.isDigit
  if ds.isEmpty then JsVal.nan
  else JsVal.num (signDigits.1 *
    (ds.foldl (fun acc c => acc * 10 + (c.toNat - '0'.toNat)) (0 : Nat) : Nat))

/-- The `page` argument expression of the `/search` handler
(part_002 line 20): `page ? parseInt(page) : 1 || 'default'`. Since `||`
binds tighter than the conditional operator, the else-branch is the whole
of `1 || 'default'`. `page` here is the raw query parameter: absent or a
string. -/
def pageArg (page : Option String) : JsVal :=
  match page with
  | none => jsOr (JsVal.num 1) (JsVal.str "default")
  | some p =>
    if (JsVal.str p).truthy then parseInt p
    else jsOr (JsVal.num 1) (JsVal.str "default")

/-! ## General helper lemmas -/

theorem string_append_slashes_ne_empty (t : String) : "//" ++ t ≠ "" := by
  cases t with
  | mk data =>
    intro h
    have hd := congrArg String.data h
    simp [String.data_append] at hd

theorem string_https_append_slashes (t : String) :
    "https:" ++ ("//" ++ t) = "https://" ++ t := by
  cases t with
  | mk data => rfl

example : pageArg none = JsVal.num 1 := by decide
example : parseInt "17" = JsVal.num 17 := by rfl
example : schemePrefix (some "//img.example/x.png") =
    some "https://img.example/x.png" := by decide
example : schemePrefix none = none := by decide
example : schemePrefix (some "https://a.com/x") =
    some "https:https://a.com/x" := by decide

/-! ## C1: scheme normalization in result projection -/

/-- C1 (counterexample): the claim says an image/url value already containing
a scheme is left unchanged; but `projectItem` prefixes `https:` to every
truthy value, so `https://a.com/x.png` becomes `https:https://a.com/x.png`
and is not left unchanged. -/
theorem C1_counterexample :
    (projectItem { item := some { title := none, sku := none, image := some "https://a.com/x.png", itemUrl := none } }).image
        = some "https:https://a.com/x.png" ∧
      (projectItem { item := some { title := none, sku := none, image := some "https://a.com/x.png", itemUrl := none } }).image
        ≠ some "https://a.com/x.png" := by
  constructor
  · rfl
  · decide

/-- C1 (amended): in result projection, an absent upstream image/url field
stays absent; a value beginning with `//` is rewritten to begin with
`https://`; and in general every non-empty value, including one already
containing a scheme, is prefixed with `https:` (it is not left
unchanged). -/
theorem C1_theorem (e : UpstreamEntry) :
    (e.item.bind (·.image) = none → (projectItem e).image = none) ∧
    (∀ t, e.item.bind (·.image) = some ("//" ++ t) →
      (projectItem e).image = some ("https://" ++ t)) ∧
    (∀ s, e.item.bind (·.image) = some s → s ≠ "" →
      (projectItem e).image = some ("https:" ++ s)) ∧
    (e.item.bind (·.itemUrl) = none → (projectItem e).url = none) ∧
    (∀ t, e.item.bind (·.itemUrl) = some ("//" ++ t) →
      (projectItem e).url = some ("https://" ++ t)) ∧
    (∀ s, e.item.bind (·.itemUrl) = some s → s ≠ "" →
      (projectItem e).url = some ("https:" ++ s)) := by
  refine ⟨?_, ?_, ?_, ?_, ?_, ?_⟩
  · intro h; simp [projectItem, schemePrefix, h]
  · intro t h
    simp [projectItem, schemePrefix, h, string_append_slashes_ne_empty t,
      string_https_append_slashes t]
  · intro s h hs; simp [projectItem, schemePrefix, h, hs]
  · intro h; simp [projectItem, schemePrefix, h]
  · intro t h
    simp [projectItem, schemePrefix, h, string_append_slashes_ne_empty t,
      string_https_append_slashes t]
  · intro s h hs; simp [projectItem, schemePrefix, h, hs]

/-- C1 (witness): the amended theorem applied at concrete entries: an absent
image stays absent, a `//`-relative image gains `https:`, and a non-empty
url is prefixed. -/
theorem C1_witness :
    (projectItem { item := some { title := some "t", sku := none, image := none, itemUrl := none } }).image = none ∧
    (projectItem { item := some { title := none, sku := none, image := some ("//" ++ "cdn.example/i.png"), itemUrl := none } }).image
      = some ("https://" ++ "cdn.example/i.png") ∧
    (projectItem { item := some { title := none, sku := none, image := none, itemUrl := some "x.example/p" } }).url
      = some ("https:" ++ "x.example/p") := by
  refine ⟨?_, ?_, ?_⟩
  · exact (C1_theorem _).1 (by decide)
  · exact (C1_theorem _).2.1 "cdn.example/i.png" (by decide)
  · exact (C1_theorem _).2.2.2.2.2 "x.example/p" (by decide) (by decide)

/-! ## C5: the /search handler page argument -/

/-- C5 (counterexample): the claim says that with `page` absent the value
passed on is the string `"default"`; in fact `||` binds tighter than the
conditional, so the else-branch is `(1 || 'default')`, which evaluates to
the number 1. -/
theorem C5_counterexample :
    pageArg none = JsVal.num 1 ∧ pageArg none ≠ JsVal.str "default" := by
  decide

/-- C5 (amended): when the `page` query parameter is absent, the page value
passed to the search pipeline is the numeric 1, not the string `"default"`;
indeed no value of the `page` parameter ever produces the string
`"default"` (the `|| 'default'` fallback is dead code). -/
theorem C5_theorem :
    pageArg none = JsVal.num 1 ∧ ∀ p, pageArg p ≠ JsVal.str "default" := by
  constructor
  · decide
  · intro p
    match p with
    | none => decide
    | some s =>
      simp only [pageArg]
      split
      · show parseInt s ≠ JsVal.str "default"
        simp only [parseInt]
        split <;> simp
      · decide

/-! ## Evaluation lemmas for searchAliExpress (shared by several claims) -/

/-- An empty query is rejected before anything else happens. -/
theorem searchAliExpress_noquery (cfg : Config) (net : NetOracle)
    (cache : Cache) (page sort : String) :
    searchAliExpress cfg net cache "" page sort =
      { outcome := .error (.err "Search query (q) is required")
        cache' := cache, cacheKeyUsed := none, searchQuery := none
        aiCalls := 0, usedKeys := [] } := rfl

/-- Cache hit: the cached list is returned, nothing is contacted. -/
theorem searchAliExpress_hit (cfg : Config) (net : NetOracle) (cache : Cache)
    (q page sort : String) (cached : List ResultItem) (hq : q ≠ "")
    (hhit : cacheLookup cache (getCacheKey q page sort) = some cached) :
    searchAliExpress cfg net cache q page sort =
      { outcome := .ok cached, cache' := cache
        cacheKeyUsed := some (getCacheKey q page sort), searchQuery := none
        aiCalls := 0, usedKeys := [] } := by
  unfold searchAliExpress
  simp [hq, hhit]

/-- Cache miss with a falsy `rapidApiKey`: the missing-credential error is
thrown after the optimizer stage but before any outbound search request. -/
theorem searchAliExpress_miss_nokey (cfg : Config) (net : NetOracle)
    (cache : Cache) (q page sort : String) (hq : q ≠ "")
    (hmiss : cacheLookup cache (getCacheKey q page sort) = none)
    (hkey : keyConfigTruthy cfg.rapidApiKey = false) :
    searchAliExpress cfg net cache q page sort =
      { outcome := .error
          (.err "RapidAPI key is required. Set RAPIDAPI_KEY in .env file")
        cache' := cache, cacheKeyUsed := some (getCacheKey q page sort)
        searchQuery := none
        aiCalls := (optimizeSearchQuery cfg.hackclubApiKey net.ai q).2
        usedKeys := [] } := by
  unfold searchAliExpress
  simp [hq, hmiss, hkey]

/-- Cache miss, credential loop succeeds: results are returned and written
to the cache under the original-query key. -/
theorem searchAliExpress_miss_success (cfg : Config) (net : NetOracle)
    (cache : Cache) (q page sort : String) (results : List ResultItem)
    (l : Option String) (used : List String) (hq : q ≠ "")
    (hmiss : cacheLookup cache (getCacheKey q page sort) = none)
    (hkey : keyConfigTruthy cfg.rapidApiKey = true)
    (ht : tryKeys net.search (normalizeKeys cfg.rapidApiKey) 0 none
      = (some results, l, used)) :
    searchAliExpress cfg net cache q page sort =
      { outcome := .ok results
        cache' := cacheInsert cache (getCacheKey q page sort) results
        cacheKeyUsed := some (getCacheKey q page sort)
        searchQuery := some (optimizeSearchQuery cfg.hackclubApiKey net.ai q).1
        aiCalls := (optimizeSearchQuery cfg.hackclubApiKey net.ai q).2
        usedKeys := used } := by
  unfold searchAliExpress
  simp [hq, hmiss, hkey, ht]

/-- Cache miss, every credential failed with a recorded last error: the
aggregated exhaustion error is thrown. -/
theorem searchAliExpress_miss_exhaust (cfg : Config) (net : NetOracle)
    (cache : Cache) (q page sort : String) (lastMsg : String)
    (used : List String) (hq : q ≠ "")
    (hmiss : cacheLookup cache (getCacheKey q page sort) = none)
    (hkey : keyConfigTruthy cfg.rapidApiKey = true)
    (ht : tryKeys net.search (normalizeKeys cfg.rapidApiKey) 0 none
      = (none, some lastMsg, used)) :
    searchAliExpress cfg net cache q page sort =
      { outcome := .error
          (.err (exhaustMsg (normalizeKeys cfg.rapidApiKey).length lastMsg))
        cache' := cache
        cacheKeyUsed := some (getCacheKey q page sort)
        searchQuery := some (optimizeSearchQuery cfg.hackclubApiKey net.ai q).1
        aiCalls := (optimizeSearchQuery cfg.hackclubApiKey net.ai q).2
        usedKeys := used } := by
  unfold searchAliExpress
  simp [hq, hmiss, hkey, ht]

/-- Cache miss, the loop ended with `lastError` still null (zero
iterations): reading `lastError.message` raises the TypeError. -/
theorem searchAliExpress_miss_nolast (cfg : Config) (net : NetOracle)
    (cache : Cache) (q page sort : String) (used : List String) (hq : q ≠ "")
    (hmiss : cacheLookup cache (getCacheKey q page sort) = none)
    (hkey : keyConfigTruthy cfg.rapidApiKey = true)
    (ht : tryKeys net.search (normalizeKeys cfg.rapidApiKey) 0 none
      = (none, none, used)) :
    searchAliExpress cfg net cache q page sort =
      { outcome := .error (.nullFieldAccess "message")
        cache' := cache
        cacheKeyUsed := some (getCacheKey q page sort)
        searchQuery := some (optimizeSearchQuery cfg.hackclubApiKey net.ai q).1
        aiCalls := (optimizeSearchQuery cfg.hackclubApiKey net.ai q).2
        usedKeys := used } := by
  unfold searchAliExpress
  simp [hq, hmiss, hkey, ht]

/-! ## Lemmas about the loop body and the loop -/

/-- A successful upstream response makes the loop body return the projected
results, independently of the loop index. -/
theorem runAttempt_success (i : Nat) (o : SearchOutcome)
    (h : outcomeOk o = true) :
    runAttempt i o = .success (successResults o) := by
  cases o <;> simp_all [runAttempt, outcomeOk, successResults]

/-- A non-successful upstream response makes the loop body record some
failure message. -/
theorem runAttempt_failure (i : Nat) (o : SearchOutcome)
    (h : outcomeOk o = false) :
    ∃ m, runAttempt i o = .failure m := by
  cases o with
  | transportError m => exact ⟨m, rfl⟩
  | forbidden => exact ⟨_, rfl⟩
  | httpError s b => exact ⟨_, rfl⟩
  | okBody body =>
    have hb : jsTruthyStr body.error = true := by
      simpa [outcomeOk] using h
    exact ⟨"API Error: " ++ body.error.getD "", by simp [runAttempt, hb]⟩

/-- When every credential fails, the loop attempts all of them, ends with
no results, and its final `lastError` is the failure message of the last
attempt (at loop index `i + ks₀.length`). -/
theorem tryKeys_all_fail (search : String → SearchOutcome) (klast : String) :
    ∀ (ks₀ : List String) (i : Nat) (last : Option String),
      (∀ k ∈ ks₀ ++ [klast], outcomeOk (search k) = false) →
      ∃ m, runAttempt (i + ks₀.length) (search klast) = .failure m ∧
        tryKeys search (ks₀ ++ [klast]) i last = (none, some m, ks₀ ++ [klast]) := by
  intro ks₀
  induction ks₀ with
  | nil =>
    intro i last hfail
    obtain ⟨m, hm⟩ := runAttempt_failure i (search klast) (hfail klast (by simp))
    exact ⟨m, by simpa using hm, by simp [tryKeys, hm]⟩
  | cons k ks ih =>
    intro i last hfail
    obtain ⟨m₀, hm₀⟩ := runAttempt_failure i (search k) (hfail k (by simp))
    obtain ⟨m, hm, ht⟩ := ih (i + 1) (some m₀)
      (fun k' hk' => hfail k' (by simp at hk' ⊢; tauto))
    refine ⟨m, ?_, ?_⟩
    · have : i + 1 + ks.length = i + (k :: ks).length := by
        simp [List.length_cons]; omega
      rwa [this] at hm
    · simp [tryKeys, hm₀, ht]

/-- When a prefix of the credentials each answer 403 and the next one
succeeds, the loop returns that credential's results and attempts exactly
the prefix plus the succeeding credential — nothing after it. -/
theorem tryKeys_forbidden_prefix (search : String → SearchOutcome)
    (kok : String) (post : List String) (hok : outcomeOk (search kok) = true) :
    ∀ (pre : List String) (i : Nat) (last : Option String),
      (∀ k ∈ pre, search k = .forbidden) →
      ∃ l, tryKeys search (pre ++ kok :: post) i last
        = (some (successResults (search kok)), l, pre ++ [kok]) := by
  intro pre
  induction pre with
  | nil =>
    intro i last _
    exact ⟨last, by simp [tryKeys, runAttempt_success i _ hok]⟩
  | cons k pre ih =>
    intro i last hforb
    have hk : search k = .forbidden := hforb k (by simp)
    obtain ⟨l, hl⟩ := ih (i + 1) (some ("API key " ++ toString (i + 1) ++ " returned 403 Forbidden"))
      (fun k' hk' => hforb k' (by simp [hk']))
    exact ⟨l, by simp [tryKeys, hk, runAttempt, hl]⟩

/-- After a run whose outcome is a successful result list, that list is in
the run's final cache under the original-query key (it was either already
there — a hit — or was just written). -/
theorem searchAliExpress_success_cached (cfg : Config) (net : NetOracle)
    (cache : Cache) (q page sort : String) (rs : List ResultItem) (hq : q ≠ "")
    (h : (searchAliExpress cfg net cache q page sort).outcome = .ok rs) :
    cacheLookup (searchAliExpress cfg net cache q page sort).cache'
      (getCacheKey q page sort) = some rs := by
  cases hl : cacheLookup cache (getCacheKey q page sort) with
  | some cached =>
    rw [searchAliExpress_hit cfg net cache q page sort cached hq hl] at h ⊢
    simp only [Except.ok.injEq] at h
    simpa [hl] using congrArg some h
  | none =>
    cases hkey : keyConfigTruthy cfg.rapidApiKey with
    | false =>
      rw [searchAliExpress_miss_nokey cfg net cache q page sort hq hl hkey] at h
      simp at h
    | true =>
      rcases ht : tryKeys net.search (normalizeKeys cfg.rapidApiKey) 0 none
        with ⟨r, l, used⟩
      cases r with
      | some results =>
        rw [searchAliExpress_miss_success cfg net cache q page sort results
          l used hq hl hkey ht] at h ⊢
        simp only [Except.ok.injEq] at h
        subst h
        simp [cacheLookup, cacheInsert, List.lookup]
      | none =>
        cases l with
        | some m =>
          rw [searchAliExpress_miss_exhaust cfg net cache q page sort m
            used hq hl hkey ht] at h
          simp at h
        | none =>
          rw [searchAliExpress_miss_nolast cfg net cache q page sort
            used hq hl hkey ht] at h
          simp at h

/-- The key the cache is consulted under is a function of the raw request
fields alone. -/
theorem searchAliExpress_keyUsed (cfg : Config) (net : NetOracle)
    (cache : Cache) (q page sort : String) :
    (searchAliExpress cfg net cache q page sort).cacheKeyUsed
      = if q = "" then none else some (getCacheKey q page sort) := by
  by_cases hq : q = ""
  · subst hq; rw [searchAliExpress_noquery]; simp
  · rw [if_neg hq]
    cases hl : cacheLookup cache (getCacheKey q page sort) with
    | some cached =>
      rw [searchAliExpress_hit cfg net cache q page sort cached hq hl]
    | none =>
      cases hkey : keyConfigTruthy cfg.rapidApiKey with
      | false =>
        rw [searchAliExpress_miss_nokey cfg net cache q page sort hq hl hkey]
      | true =>
        rcases ht : tryKeys net.search (normalizeKeys cfg.rapidApiKey) 0 none
          with ⟨r, l, used⟩
        cases r with
        | some results =>
          rw [searchAliExpress_miss_success cfg net cache q page sort results
            l used hq hl hkey ht]
        | none =>
          cases l with
          | some m =>
            rw [searchAliExpress_miss_exhaust cfg net cache q page sort m
              used hq hl hkey ht]
          | none =>
            rw [searchAliExpress_miss_nolast cfg net cache q page sort
              used hq hl hkey ht]

/-! ## C2: credential fallback equivalence -/

/-- C2: with configured credentials `pre ++ kok :: post`, where every
credential in `pre` gets a 403 from upstream and `kok` gets a true
success, the run's outcome equals that of a run configured with only
`kok`, and the credentials sent upstream are exactly `pre ++ [kok]` —
nothing in `post` is ever used. -/
theorem C2_theorem (hc : Option String) (ai : AiOutcome)
    (search : String → SearchOutcome) (cache : Cache) (q page sort : String)
    (pre post : List String) (kok : String) (hq : q ≠ "")
    (hmiss : cacheLookup cache (getCacheKey q page sort) = none)
    (hforb : ∀ k ∈ pre, search k = .forbidden)
    (hok : outcomeOk (search kok) = true) :
    (searchAliExpress ⟨hc, .arr (pre ++ kok :: post)⟩ ⟨ai, search⟩ cache q page sort).outcome
      = (searchAliExpress ⟨hc, .arr [kok]⟩ ⟨ai, search⟩ cache q page sort).outcome ∧
    (searchAliExpress ⟨hc, .arr (pre ++ kok :: post)⟩ ⟨ai, search⟩ cache q page sort).outcome
      = .ok (successResults (search kok)) ∧
    (searchAliExpress ⟨hc, .arr (pre ++ kok :: post)⟩ ⟨ai, search⟩ cache q page sort).usedKeys
      = pre ++ [kok] := by
  obtain ⟨l, ht⟩ := tryKeys_forbidden_prefix search kok post hok pre 0 none hforb
  obtain ⟨l₁, ht₁⟩ := tryKeys_forbidden_prefix search kok [] hok [] 0 none (by simp)
  rw [searchAliExpress_miss_success ⟨hc, .arr (pre ++ kok :: post)⟩ ⟨ai, search⟩
    cache q page sort (successResults (search kok)) l (pre ++ [kok]) hq hmiss rfl ht]
  rw [searchAliExpress_miss_success ⟨hc, .arr [kok]⟩ ⟨ai, search⟩
    cache q page sort (successResults (search kok)) l₁ [kok] hq hmiss rfl
    (by simpa using ht₁)]
  exact ⟨rfl, rfl, rfl⟩

/-- C2 (witness): two bad credentials answering 403, a third good one, and
a fourth that is never used. -/
theorem C2_witness :
    ("w" : String) ≠ "" ∧
    cacheLookup [] (getCacheKey "w" "1" "default") = none ∧
    (∀ k ∈ (["bad1", "bad2"] : List String),
      (fun k' => if k' = "good" then SearchOutcome.okBody ⟨none, none⟩ else .forbidden) k = .forbidden) ∧
    outcomeOk ((fun k' => if k' = "good" then SearchOutcome.okBody ⟨none, none⟩ else .forbidden) "good") = true ∧
    (searchAliExpress ⟨none, .arr (["bad1", "bad2"] ++ "good" :: ["unused"])⟩
        ⟨.ok none, fun k' => if k' = "good" then SearchOutcome.okBody ⟨none, none⟩ else .forbidden⟩
        [] "w" "1" "default").outcome
      = (searchAliExpress ⟨none, .arr ["good"]⟩
        ⟨.ok none, fun k' => if k' = "good" then SearchOutcome.okBody ⟨none, none⟩ else .forbidden⟩
        [] "w" "1" "default").outcome ∧
    (searchAliExpress ⟨none, .arr (["bad1", "bad2"] ++ "good" :: ["unused"])⟩
        ⟨.ok none, fun k' => if k' = "good" then SearchOutcome.okBody ⟨none, none⟩ else .forbidden⟩
        [] "w" "1" "default").usedKeys
      = ["bad1", "bad2"] ++ ["good"] := by
  refine ⟨by decide, rfl, by decide, by decide, ?_, ?_⟩
  · exact (C2_theorem none (.ok none) _ [] "w" "1" "default" ["bad1", "bad2"]
      ["unused"] "good" (by decide) rfl (by decide) (by decide)).1
  · exact (C2_theorem none (.ok none) _ [] "w" "1" "default" ["bad1", "bad2"]
      ["unused"] "good" (by decide) rfl (by decide) (by decide)).2.2

/-! ## C3: idempotent second call via the cache -/

/-- C3: if a run for `(q, page, sort)` succeeds with result list `rs`, then
a second run with the same raw request against the resulting cache — under
any configuration and any network behaviour whatsoever — returns exactly
`rs`, sends no outbound search request, and makes no AI call. -/
theorem C3_theorem (cfg cfg₂ : Config) (net net₂ : NetOracle) (cache : Cache)
    (q page sort : String) (rs : List ResultItem) (hq : q ≠ "")
    (h1 : (searchAliExpress cfg net cache q page sort).outcome = .ok rs) :
    (searchAliExpress cfg₂ net₂ (searchAliExpress cfg net cache q page sort).cache'
      q page sort).outcome = .ok rs ∧
    (searchAliExpress cfg₂ net₂ (searchAliExpress cfg net cache q page sort).cache'
      q page sort).usedKeys = [] ∧
    (searchAliExpress cfg₂ net₂ (searchAliExpress cfg net cache q page sort).cache'
      q page sort).aiCalls = 0 := by
  have hcached := searchAliExpress_success_cached cfg net cache q page sort rs hq h1
  rw [searchAliExpress_hit cfg₂ net₂ _ q page sort rs hq hcached]
  exact ⟨rfl, rfl, rfl⟩

/-- C3 (witness): a concrete successful first call; the second call, run
with a different configuration and a hostile network, still returns the
same list from cache with no outbound requests. -/
theorem C3_witness :
    ("w" : String) ≠ "" ∧
    (searchAliExpress ⟨none, .arr ["k1"]⟩ ⟨.ok none, fun _ => .okBody ⟨none, none⟩⟩
      [] "w" "1" "default").outcome = .ok [] ∧
    (searchAliExpress ⟨some "hk", .arr []⟩ ⟨.httpError 500, fun _ => .forbidden⟩
      ((searchAliExpress ⟨none, .arr ["k1"]⟩ ⟨.ok none, fun _ => .okBody ⟨none, none⟩⟩
        [] "w" "1" "default").cache') "w" "1" "default").outcome = .ok [] ∧
    (searchAliExpress ⟨some "hk", .arr []⟩ ⟨.httpError 500, fun _ => .forbidden⟩
      ((searchAliExpress ⟨none, .arr ["k1"]⟩ ⟨.ok none, fun _ => .okBody ⟨none, none⟩⟩
        [] "w" "1" "default").cache') "w" "1" "default").usedKeys = [] ∧
    (searchAliExpress ⟨some "hk", .arr []⟩ ⟨.httpError 500, fun _ => .forbidden⟩
      ((searchAliExpress ⟨none, .arr ["k1"]⟩ ⟨.ok none, fun _ => .okBody ⟨none, none⟩⟩
        [] "w" "1" "default").cache') "w" "1" "default").aiCalls = 0 := by
  refine ⟨by decide, rfl, ?_⟩
  exact C3_theorem ⟨none, .arr ["k1"]⟩ ⟨some "hk", .arr []⟩
    ⟨.ok none, fun _ => .okBody ⟨none, none⟩⟩ ⟨.httpError 500, fun _ => .forbidden⟩
    [] "w" "1" "default" [] (by decide) rfl

/-! ## C4: cache key purity -/

/-- C4: the cache key consulted by a run depends only on the raw
`(q, page, sort)`: two runs with the same raw request but arbitrarily
different configurations, AI endpoint behaviours (hence optimizer
outputs), search endpoint behaviours and starting caches consult the same
key, namely `getCacheKey q page sort` (when the query is non-empty). -/
theorem C4_theorem (cfg₁ cfg₂ : Config) (net₁ net₂ : NetOracle)
    (c₁ c₂ : Cache) (q page sort : String) :
    (searchAliExpress cfg₁ net₁ c₁ q page sort).cacheKeyUsed
      = (searchAliExpress cfg₂ net₂ c₂ q page sort).cacheKeyUsed ∧
    (q ≠ "" → (searchAliExpress cfg₁ net₁ c₁ q page sort).cacheKeyUsed
      = some (getCacheKey q page sort)) := by
  constructor
  · rw [searchAliExpress_keyUsed, searchAliExpress_keyUsed]
  · intro hq
    rw [searchAliExpress_keyUsed, if_neg hq]

/-- C4 (witness): same raw request, different AI outcomes (one optimizer
failure, one transport error — hence different optimizer outputs): the
same key is consulted. -/
theorem C4_witness :
    (searchAliExpress ⟨some "hk", .arr ["k"]⟩ ⟨.ok none, fun _ => .forbidden⟩
      [] "watch" "1" "default").cacheKeyUsed
      = (searchAliExpress ⟨some "hk", .arr ["k"]⟩ ⟨.transportError "x", fun _ => .forbidden⟩
      [] "watch" "1" "default").cacheKeyUsed ∧
    ("watch" : String) ≠ "" ∧
    (searchAliExpress ⟨some "hk", .arr ["k"]⟩ ⟨.ok none, fun _ => .forbidden⟩
      [] "watch" "1" "default").cacheKeyUsed
      = some (getCacheKey "watch" "1" "default") := by
  refine ⟨?_, by decide, ?_⟩
  · exact (C4_theorem ⟨some "hk", .arr ["k"]⟩ ⟨some "hk", .arr ["k"]⟩
      ⟨.ok none, fun _ => .forbidden⟩ ⟨.transportError "x", fun _ => .forbidden⟩
      [] [] "watch" "1" "default").1
  · exact (C4_theorem ⟨some "hk", .arr ["k"]⟩ ⟨some "hk", .arr ["k"]⟩
      ⟨.ok none, fun _ => .forbidden⟩ ⟨.transportError "x", fun _ => .forbidden⟩
      [] [] "watch" "1" "default").2 (by decide)

/-! ## C6: total exhaustion error -/

/-- C6: with configured credentials `ks₀ ++ [klast]` (any non-empty list)
all of which fail — 403, transport error, non-ok status or logical error
field — the run fails with the single aggregated message
`exhaustMsg (ks₀.length + 1) m`, which by construction is the literal
`Failed to search AliExpress with all N API key(s). Last error: ` with
`N = ks₀.length + 1` (the number of candidates attempted) followed by `m`,
the failure message `m` recorded for the last credential `klast`. -/
theorem C6_theorem (cfg : Config) (net : NetOracle) (cache : Cache)
    (q page sort : String) (ks₀ : List String) (klast : String) (hq : q ≠ "")
    (hmiss : cacheLookup cache (getCacheKey q page sort) = none)
    (hkeycfg : keyConfigTruthy cfg.rapidApiKey = true)
    (hkeys : normalizeKeys cfg.rapidApiKey = ks₀ ++ [klast])
    (hfail : ∀ k ∈ ks₀ ++ [klast], outcomeOk (net.search k) = false) :
    ∃ m, runAttempt ks₀.length (net.search klast) = .failure m ∧
      (searchAliExpress cfg net cache q page sort).outcome
        = .error (.err (exhaustMsg (ks₀.length + 1) m)) := by
  obtain ⟨m, hm, ht⟩ := tryKeys_all_fail net.search klast ks₀ 0 none hfail
  refine ⟨m, by simpa using hm, ?_⟩
  rw [searchAliExpress_miss_exhaust cfg net cache q page sort m
    (ks₀ ++ [klast]) hq hmiss hkeycfg (by rw [hkeys]; exact ht)]
  simp [hkeys]

/-- C6 (witness): two credentials, the first getting a 403 and the second a
non-ok 500 status; the aggregated error names both the count 2 and the
last message. -/
theorem C6_witness :
    ("w" : String) ≠ "" ∧
    cacheLookup [] (getCacheKey "w" "1" "default") = none ∧
    keyConfigTruthy (KeyConfig.arr ["k1", "k2"]) = true ∧
    normalizeKeys (KeyConfig.arr ["k1", "k2"]) = ["k1"] ++ ["k2"] ∧
    (∀ k ∈ (["k1"] ++ ["k2"] : List String),
      outcomeOk ((fun k' => if k' = "k2" then SearchOutcome.httpError 500 "oops" else .forbidden) k) = false) ∧
    (∃ m, runAttempt (List.length ["k1"])
        ((fun k' => if k' = "k2" then SearchOutcome.httpError 500 "oops" else .forbidden) "k2") = .failure m ∧
      (searchAliExpress ⟨none, .arr ["k1", "k2"]⟩
        ⟨.ok none, fun k' => if k' = "k2" then SearchOutcome.httpError 500 "oops" else .forbidden⟩
        [] "w" "1" "default").outcome
        = .error (.err (exhaustMsg (List.length ["k1"] + 1) m))) := by
  refine ⟨by decide, rfl, rfl, rfl, by decide, ?_⟩
  exact C6_theorem ⟨none, .arr ["k1", "k2"]⟩
    ⟨.ok none, fun k' => if k' = "k2" then SearchOutcome.httpError 500 "oops" else .forbidden⟩
    [] "w" "1" "default" ["k1"] "k2" (by decide) rfl rfl rfl (by decide)

/-! ## C7: optimizer unavailability -/

/-- C7: with no language-model credential configured (absent or empty, both
falsy), the optimizer returns the input query with zero AI calls, and a
cache-miss run passes exactly the original query to the search stage with
zero AI calls. -/
theorem C7_theorem (cfg : Config) (net : NetOracle) (cache : Cache)
    (q page sort : String)
    (hnokey : jsTruthyStr cfg.hackclubApiKey = false) (hq : q ≠ "")
    (hmiss : cacheLookup cache (getCacheKey q page sort) = none)
    (hkey : keyConfigTruthy cfg.rapidApiKey = true) :
    optimizeSearchQuery cfg.hackclubApiKey net.ai q = (q, 0) ∧
    (searchAliExpress cfg net cache q page sort).searchQuery = some q ∧
    (searchAliExpress cfg net cache q page sort).aiCalls = 0 := by
  have hopt : optimizeSearchQuery cfg.hackclubApiKey net.ai q = (q, 0) := by
    unfold optimizeSearchQuery
    simp [hnokey]
  refine ⟨hopt, ?_⟩
  rcases ht : tryKeys net.search (normalizeKeys cfg.rapidApiKey) 0 none
    with ⟨r, l, used⟩
  cases r with
  | some results =>
    rw [searchAliExpress_miss_success cfg net cache q page sort results
      l used hq hmiss hkey ht]
    simp [hopt]
  | none =>
    cases l with
    | some m =>
      rw [searchAliExpress_miss_exhaust cfg net cache q page sort m
        used hq hmiss hkey ht]
      simp [hopt]
    | none =>
      rw [searchAliExpress_miss_nolast cfg net cache q page sort
        used hq hmiss hkey ht]
      simp [hopt]

/-- C7 (witness): no HackClub key configured; the query reaching the search
URL is the raw query and the AI endpoint is never called, even though the
AI oracle would answer. -/
theorem C7_witness :
    jsTruthyStr (none : Option String) = false ∧
    ("red shoes" : String) ≠ "" ∧
    cacheLookup [] (getCacheKey "red shoes" "1" "default") = none ∧
    keyConfigTruthy (KeyConfig.arr ["k"]) = true ∧
    optimizeSearchQuery none (.httpError 500) "red shoes" = ("red shoes", 0) ∧
    (searchAliExpress ⟨none, .arr ["k"]⟩ ⟨.httpError 500, fun _ => .forbidden⟩
      [] "red shoes" "1" "default").searchQuery = some "red shoes" ∧
    (searchAliExpress ⟨none, .arr ["k"]⟩ ⟨.httpError 500, fun _ => .forbidden⟩
      [] "red shoes" "1" "default").aiCalls = 0 := by
  refine ⟨rfl, by decide, rfl, rfl, ?_, ?_, ?_⟩
  · exact (C7_theorem ⟨none, .arr ["k"]⟩ ⟨.httpError 500, fun _ => .forbidden⟩
      [] "red shoes" "1" "default" rfl (by decide) rfl rfl).1
  · exact (C7_theorem ⟨none, .arr ["k"]⟩ ⟨.httpError 500, fun _ => .forbidden⟩
      [] "red shoes" "1" "default" rfl (by decide) rfl rfl).2.1
  · exact (C7_theorem ⟨none, .arr ["k"]⟩ ⟨.httpError 500, fun _ => .forbidden⟩
      [] "red shoes" "1" "default" rfl (by decide) rfl rfl).2.2

/-! ## C8: missing search credential -/

/-- C8 (counterexample): with a HackClub key configured and the search
credential absent, a cache-miss run does fail with the missing-credential
error — but only after making the AI rewrite call (`aiCalls = 1`), so the
failure is not surfaced before any outbound network call as claimed. -/
theorem C8_counterexample :
    (searchAliExpress ⟨some "hk", .absent⟩ ⟨.ok none, fun _ => .forbidden⟩
      [] "watch" "1" "default").outcome
      = .error (.err "RapidAPI key is required. Set RAPIDAPI_KEY in .env file") ∧
    (searchAliExpress ⟨some "hk", .absent⟩ ⟨.ok none, fun _ => .forbidden⟩
      [] "watch" "1" "default").aiCalls = 1 := ⟨rfl, rfl⟩

/-- C8 (amended): on a cache miss with a falsy search credential the run
fails with the missing-credential error and no outbound search request is
ever sent — but the failure comes after the optimizer stage, so the AI
rewrite call (when a language-model credential is configured) does
happen. -/
theorem C8_theorem (cfg : Config) (net : NetOracle) (cache : Cache)
    (q page sort : String) (hq : q ≠ "")
    (hmiss : cacheLookup cache (getCacheKey q page sort) = none)
    (hkey : keyConfigTruthy cfg.rapidApiKey = false) :
    (searchAliExpress cfg net cache q page sort).outcome
      = .error (.err "RapidAPI key is required. Set RAPIDAPI_KEY in .env file") ∧
    (searchAliExpress cfg net cache q page sort).usedKeys = [] ∧
    (searchAliExpress cfg net cache q page sort).aiCalls
      = (optimizeSearchQuery cfg.hackclubApiKey net.ai q).2 := by
  rw [searchAliExpress_miss_nokey cfg net cache q page sort hq hmiss hkey]
  exact ⟨rfl, rfl, rfl⟩

/-- C8 (witness): the amended theorem at the counterexample's input: the
missing-credential error, zero search requests, and one AI call. -/
theorem C8_witness :
    ("watch" : String) ≠ "" ∧
    cacheLookup [] (getCacheKey "watch" "1" "default") = none ∧
    keyConfigTruthy KeyConfig.absent = false ∧
    (searchAliExpress ⟨some "hk", .absent⟩ ⟨.ok none, fun _ => .forbidden⟩
      [] "watch" "1" "default").outcome
      = .error (.err "RapidAPI key is required. Set RAPIDAPI_KEY in .env file") ∧
    (searchAliExpress ⟨some "hk", .absent⟩ ⟨.ok none, fun _ => .forbidden⟩
      [] "watch" "1" "default").usedKeys = [] ∧
    (searchAliExpress ⟨some "hk", .absent⟩ ⟨.ok none, fun _ => .forbidden⟩
      [] "watch" "1" "default").aiCalls
      = (optimizeSearchQuery (some "hk") (.ok none) "watch").2 := by
  refine ⟨by decide, rfl, rfl, ?_, ?_, ?_⟩
  · exact (C8_theorem ⟨some "hk", .absent⟩ ⟨.ok none, fun _ => .forbidden⟩
      [] "watch" "1" "default" (by decide) rfl rfl).1
  · exact (C8_theorem ⟨some "hk", .absent⟩ ⟨.ok none, fun _ => .forbidden⟩
      [] "watch" "1" "default" (by decide) rfl rfl).2.1
  · exact (C8_theorem ⟨some "hk", .absent⟩ ⟨.ok none, fun _ => .forbidden⟩
      [] "watch" "1" "default" (by decide) rfl rfl).2.2

/-! ## C9: empty credential array -/

/-- C9: with the credentials configured as the empty array (truthy in JS,
so the missing-credential check passes) and a cache miss, the loop runs
zero iterations, `lastError` is still null, and the final throw reading
`lastError.message` fails with the null-dereference TypeError — never with
the documented exhaustion `Error`. -/
theorem C9_theorem (hc : Option String) (ai : AiOutcome)
    (search : String → SearchOutcome) (cache : Cache) (q page sort : String)
    (hq : q ≠ "")
    (hmiss : cacheLookup cache (getCacheKey q page sort) = none) :
    (searchAliExpress ⟨hc, .arr []⟩ ⟨ai, search⟩ cache q page sort).outcome
      = .error (.nullFieldAccess "message") ∧
    (searchAliExpress ⟨hc, .arr []⟩ ⟨ai, search⟩ cache q page sort).usedKeys = [] ∧
    ∀ m, (searchAliExpress ⟨hc, .arr []⟩ ⟨ai, search⟩ cache q page sort).outcome
      ≠ .error (.err m) := by
  rw [searchAliExpress_miss_nolast ⟨hc, .arr []⟩ ⟨ai, search⟩ cache
    q page sort [] hq hmiss rfl rfl]
  refine ⟨rfl, rfl, ?_⟩
  intro m
  simp

/-- C9 (witness): the empty-array TypeError at a concrete request. -/
theorem C9_witness :
    ("w" : String) ≠ "" ∧
    cacheLookup [] (getCacheKey "w" "1" "default") = none ∧
    (searchAliExpress ⟨none, .arr []⟩ ⟨.ok none, fun _ => .forbidden⟩
      [] "w" "1" "default").outcome = .error (.nullFieldAccess "message") ∧
    (searchAliExpress ⟨none, .arr []⟩ ⟨.ok none, fun _ => .forbidden⟩
      [] "w" "1" "default").usedKeys = [] := by
  refine ⟨by decide, rfl, ?_, ?_⟩
  · exact (C9_theorem none (.ok none) (fun _ => .forbidden) [] "w" "1" "default"
      (by decide) rfl).1
  · exact (C9_theorem none (.ok none) (fun _ => .forbidden) [] "w" "1" "default"
      (by decide) rfl).2.1

/-! ## C10: successful body without a result list -/

/-- C10: when the first credential's upstream response is an ok status with
a JSON body that has no `error` field and no `result.resultList`, the run
returns the empty list, writes it to the cache under the request's key,
and a second identical request — under any configuration and network —
returns the cached empty list with no outbound search request. -/
theorem C10_theorem (cfg cfg₂ : Config) (net net₂ : NetOracle) (cache : Cache)
    (q page sort : String) (k : String) (rest : List String)
    (body : UpstreamBody) (hq : q ≠ "")
    (hmiss : cacheLookup cache (getCacheKey q page sort) = none)
    (hkeycfg : keyConfigTruthy cfg.rapidApiKey = true)
    (hkeys : normalizeKeys cfg.rapidApiKey = k :: rest)
    (hresp : net.search k = .okBody body)
    (herr : body.error = none)
    (hlist : body.result.bind (·.resultList) = none) :
    (searchAliExpress cfg net cache q page sort).outcome = .ok [] ∧
    cacheLookup (searchAliExpress cfg net cache q page sort).cache'
      (getCacheKey q page sort) = some [] ∧
    (searchAliExpress cfg₂ net₂ (searchAliExpress cfg net cache q page sort).cache'
      q page sort).outcome = .ok [] ∧
    (searchAliExpress cfg₂ net₂ (searchAliExpress cfg net cache q page sort).cache'
      q page sort).usedKeys = [] := by
  have hok : outcomeOk (net.search k) = true := by
    simp [hresp, outcomeOk, jsTruthyStr, herr]
  have hres : successResults (net.search k) = [] := by
    simp [hresp, successResults, projectResults, hlist]
  obtain ⟨l, ht⟩ := tryKeys_forbidden_prefix net.search k rest hok [] 0 none (by simp)
  rw [hres] at ht
  have hrun := searchAliExpress_miss_success cfg net cache q page sort [] l [k]
    hq hmiss hkeycfg (by rw [hkeys]; simpa using ht)
  rw [hrun]
  have hcached : cacheLookup (cacheInsert cache (getCacheKey q page sort) [])
      (getCacheKey q page sort) = some [] := by
    simp [cacheLookup, cacheInsert, List.lookup]
  rw [searchAliExpress_hit cfg₂ net₂ _ q page sort [] hq hcached]
  exact ⟨rfl, hcached, rfl, rfl⟩

/-- C10 (witness): a concrete ok body with neither `error` nor
`result.resultList`: the empty list is returned, cached, and served from
cache on the identical second request with no credentials used. -/
theorem C10_witness :
    ("w" : String) ≠ "" ∧
    cacheLookup [] (getCacheKey "w" "1" "default") = none ∧
    normalizeKeys (KeyConfig.arr ["k"]) = "k" :: [] ∧
    (fun _ => SearchOutcome.okBody ⟨none, none⟩) "k" = SearchOutcome.okBody ⟨none, none⟩ ∧
    (searchAliExpress ⟨none, .arr ["k"]⟩ ⟨.ok none, fun _ => .okBody ⟨none, none⟩⟩
      [] "w" "1" "default").outcome = .ok [] ∧
    cacheLookup (searchAliExpress ⟨none, .arr ["k"]⟩
      ⟨.ok none, fun _ => .okBody ⟨none, none⟩⟩ [] "w" "1" "default").cache'
      (getCacheKey "w" "1" "default") = some [] ∧
    (searchAliExpress ⟨some "hk", .arr ["k2"]⟩ ⟨.httpError 500, fun _ => .forbidden⟩
      ((searchAliExpress ⟨none, .arr ["k"]⟩ ⟨.ok none, fun _ => .okBody ⟨none, none⟩⟩
        [] "w" "1" "default").cache') "w" "1" "default").outcome = .ok [] ∧
    (searchAliExpress ⟨some "hk", .arr ["k2"]⟩ ⟨.httpError 500, fun _ => .forbidden⟩
      ((searchAliExpress ⟨none, .arr ["k"]⟩ ⟨.ok none, fun _ => .okBody ⟨none, none⟩⟩
        [] "w" "1" "default").cache') "w" "1" "default").usedKeys = [] := by
  refine ⟨by decide, rfl, rfl, rfl, ?_⟩
  exact C10_theorem ⟨none, .arr ["k"]⟩ ⟨some "hk", .arr ["k2"]⟩
    ⟨.ok none, fun _ => .okBody ⟨none, none⟩⟩ ⟨.httpError 500, fun _ => .forbidden⟩
    [] "w" "1" "default" "k" [] ⟨none, none⟩ (by decide) rfl rfl rfl rfl rfl rfl
